import Mathlib

/-!
Verification of the resilient HTTP client layer (axios interceptors):
request-header attachment, success handling, error classification, and the
single-flight token-renewal protocol with its queue of pending requests.

The JavaScript source is embedded as a small-step event-loop semantics:
"concurrent" callers are interleaved tasks; the only suspension points are
ordinary network dispatch and the renewal call, so each delivered response
runs the corresponding interceptor code synchronously to the next
suspension point. Module-level mutable state (`localStorage` keys,
`isRefreshing`, `pendingRequests`, the dispatch side effects) is the
explicit system state.
-/

namespace Aether

/-- The persisted credential storage: the `localStorage` keys
`access_token`, `refresh_token`, `user`, `current_company_id`. -/
structure Store where
  access_token : Option String
  refresh_token : Option String
  user : Option String
  current_company_id : Option String
deriving Repr, DecidableEq

/-- All four keys removed, as in the refresh-failure catch block. -/
def emptyStore : Store :=
  { access_token := none, refresh_token := none, user := none,
    current_company_id := none }

/-- The `detail` field of an error body: absent, a string, or a list of
`{loc, msg}` validation entries (loc as a path of strings). -/
inductive Detail
  | noneD
  | strD (s : String)
  | listD (fields : List (List String × String))
deriving Repr, DecidableEq

/-- A toast emitted to the notification sink. -/
inductive Notif
  | success (msg : String)
  | error (msg : String)
deriving Repr, DecidableEq

/-- The closed error taxonomy produced by classification of a raw
transport outcome. -/
inductive ErrorKind
  | networkUnavailable
  | badRequest (msg : String)
  | forbidden
  | notFound
  | validation (fields : List (List String × String))
  | plainMessage (msg : String)
  | rateLimited
  | serverError
  | serviceUnavailable
  | generic (msg : String)
deriving Repr, DecidableEq

/-- JavaScript `detail || dflt`: the fallback is used when `detail` is
absent or the empty string (falsy). A list detail is rendered. -/
def detailMsg : Detail → String → String
  | Detail.noneD, dflt => dflt
  | Detail.strD s, dflt => if s = "" then dflt else s
  | Detail.listD l, _ => String.intercalate ", " (l.map (fun e => e.2))

/-- The pure classification of a raw transport outcome (`none` = no
response received at all), transcribed from the source's network-error
branch and status `switch`. The `401` status never reaches the switch
unretried, so inside the table it falls to the default branch. -/
def classify : Option (Nat × Detail) → ErrorKind
  | none => ErrorKind.networkUnavailable
  | some (status, d) =>
    if status = 400 then ErrorKind.badRequest (detailMsg d "Bad request")
    else if status = 403 then ErrorKind.forbidden
    else if status = 404 then ErrorKind.notFound
    else if status = 422 then
      match d with
      | Detail.listD l => ErrorKind.validation l
      | Detail.strD s => ErrorKind.plainMessage s
      | Detail.noneD => ErrorKind.plainMessage ""
    else if status = 429 then ErrorKind.rateLimited
    else if status = 500 then ErrorKind.serverError
    else if status = 502 ∨ status = 503 ∨ status = 504 then
      ErrorKind.serviceUnavailable
    else ErrorKind.generic (detailMsg d "An error occurred")

/-- The toasts each classified kind produces, following the source's
branches (a 422 whose detail is falsy or an empty list toasts nothing). -/
def notifsFor : ErrorKind → List Notif
  | ErrorKind.networkUnavailable =>
      [Notif.error "Network error. Please check your connection."]
  | ErrorKind.badRequest m => [Notif.error m]
  | ErrorKind.forbidden =>
      [Notif.error "You do not have permission to perform this action"]
  | ErrorKind.notFound => [Notif.error "Resource not found"]
  | ErrorKind.validation l =>
      l.map (fun e => Notif.error (String.intercalate "." e.1 ++ ": " ++ e.2))
  | ErrorKind.plainMessage m => if m = "" then [] else [Notif.error m]
  | ErrorKind.rateLimited => [Notif.error "Too many requests. Please slow down."]
  | ErrorKind.serverError => [Notif.error "Internal server error"]
  | ErrorKind.serviceUnavailable =>
      [Notif.error "Service temporarily unavailable"]
  | ErrorKind.generic m => [Notif.error m]

/-- Headers attached by the request interceptor. -/
structure Headers where
  authorization : Option String
  xCompanyId : Option String
  xRequestID : Nat
deriving Repr, DecidableEq

/-- The request interceptor: bearer token if present, company id if
present, and the fresh `X-Request-ID` for this dispatch attempt. -/
def mkHeaders (st : Store) (uuid : Nat) : Headers :=
  { authorization := st.access_token.map (fun t => "Bearer " ++ t),
    xCompanyId := st.current_company_id,
    xRequestID := uuid }

/-- Lifecycle phase of one caller's request. -/
inductive Phase
  | idle
  | inFlight
  | blocked
  | awaitingRefresh
  | resolved (payload : String)
  | rejected (reason : String)
deriving Repr, DecidableEq

/-- One caller's request descriptor and its current phase. `payload`
stands for the immutable method/path/body part of the descriptor;
`retry` is the `_retry` flag stamped onto the request object. -/
structure Task where
  payload : String
  silent : Bool
  retry : Bool
  phase : Phase
deriving Repr, DecidableEq

/-- One entry of the dispatch log: a network send that actually went out,
with the headers the request interceptor attached. -/
structure DispatchRecord where
  tid : Nat
  payload : String
  headers : Headers
deriving Repr, DecidableEq

/-- The whole mutable world: credential storage, the module-level
`isRefreshing` flag and `pendingRequests` queue, the tasks, and the
observable side effects (renewal calls issued, dispatch log, toasts,
redirect to `/login`). -/
structure Sys where
  store : Store
  isRefreshing : Bool
  pendingRequests : List Nat
  tasks : List Task
  refreshCalls : Nat
  refreshWith : List String
  refreshDriver : Option Nat
  nextRequestId : Nat
  dispatchLog : List DispatchRecord
  notifications : List Notif
  defaultsAuthorization : Option String
  redirectedToLogin : Bool
deriving Repr, DecidableEq

/-- Send task `tid`'s request through the request interceptor: log the
dispatch with fresh trace id and current headers, mark the task in
flight. -/
def dispatchTask (s : Sys) (tid : Nat) : Sys :=
  match s.tasks[tid]? with
  | none => s
  | some t =>
    { s with
      nextRequestId := s.nextRequestId + 1,
      dispatchLog := s.dispatchLog ++
        [⟨tid, t.payload, mkHeaders s.store s.nextRequestId⟩],
      tasks := s.tasks.set tid { t with phase := Phase.inFlight } }

/-- Success interceptor: toast `data.message` unless falsy or
`config.silent`; the response is returned to the caller unchanged. -/
def handleOk (s : Sys) (tid : Nat) (t : Task) (message : Option String)
    (payload : String) : Sys :=
  { s with
    notifications := s.notifications ++
      (match message with
       | some m => if m ≠ "" ∧ t.silent = false then [Notif.success m] else []
       | none => []),
    tasks := s.tasks.set tid { t with phase := Phase.resolved payload } }

/-- `!error.response`: toast the connectivity message and reject. -/
def handleNetfail (s : Sys) (tid : Nat) (t : Task) : Sys :=
  { s with
    notifications := s.notifications ++ notifsFor ErrorKind.networkUnavailable,
    tasks := s.tasks.set tid { t with phase := Phase.rejected "network_error" } }

/-- The status `switch`: toast per classification and reject with the raw
error. -/
def handleSwitch (s : Sys) (tid : Nat) (t : Task) (status : Nat)
    (d : Detail) : Sys :=
  { s with
    notifications := s.notifications ++ notifsFor (classify (some (status, d))),
    tasks := s.tasks.set tid
      { t with phase := Phase.rejected ("http_" ++ toString status) } }

/-- First unretried 401 while not refreshing: stamp `_retry`, raise
`isRefreshing`, and either fail at once when no refresh token is stored
(the catch clears storage, redirects, toasts, rejects; finally lowers the
flag) or issue the single renewal call and suspend as driver. -/
def startRefresh (s : Sys) (tid : Nat) (t : Task) : Sys :=
  match s.store.refresh_token with
  | none =>
    { s with
      isRefreshing := false,
      store := emptyStore,
      redirectedToLogin := true,
      notifications := s.notifications ++
        [Notif.error "Session expired. Please login again."],
      tasks := s.tasks.set tid
        { t with retry := true, phase := Phase.rejected "no_refresh_token" } }
  | some rt =>
    { s with
      isRefreshing := true,
      refreshCalls := s.refreshCalls + 1,
      refreshWith := s.refreshWith ++ [rt],
      refreshDriver := some tid,
      tasks := s.tasks.set tid
        { t with retry := true, phase := Phase.awaitingRefresh } }

/-- The response interceptor's error handler, run when a response for
task `tid`'s in-flight request is delivered. -/
def handleResponse (s : Sys) (tid : Nat) (message : Option String)
    (payload : String) : Sys :=
  match s.tasks[tid]? with
  | none => s
  | some t =>
    if t.phase = Phase.inFlight then handleOk s tid t message payload else s

/-- Deliver an error outcome (`none` = network failure, otherwise status
and body detail) to task `tid`'s in-flight request. -/
def handleError (s : Sys) (tid : Nat) (r : Option (Nat × Detail)) : Sys :=
  match s.tasks[tid]? with
  | none => s
  | some t =>
    if t.phase = Phase.inFlight then
      match r with
      | none => handleNetfail s tid t
      | some (status, d) =>
        if status = 401 ∧ t.retry = false then
          if s.isRefreshing then
            { s with
              pendingRequests := s.pendingRequests ++ [tid],
              tasks := s.tasks.set tid { t with phase := Phase.blocked } }
          else startRefresh s tid t
        else handleSwitch s tid t status d
    else s

/-- Deliver the renewal call's outcome to the driver. On success the new
pair is stored, the defaults header updated, every queued waiter's request
re-dispatched in FIFO order, the queue cleared, the driver's own request
re-dispatched last, and the flag lowered. On failure the storage is
cleared, the user redirected, the driver rejected — and the queue is left
exactly as it was. -/
def handleRefresh (s : Sys) (r : Option (String × String)) : Sys :=
  match s.refreshDriver with
  | none => s
  | some tid =>
    match s.tasks[tid]? with
    | none => s
    | some t =>
      match r with
      | some (a2, r2) =>
        let s2 : Sys :=
          { s with
            store := { s.store with
              access_token := some a2, refresh_token := some r2 },
            defaultsAuthorization := some ("Bearer " ++ a2) }
        let s3 := List.foldl dispatchTask s2 s2.pendingRequests
        let s4 := dispatchTask { s3 with pendingRequests := [] } tid
        { s4 with isRefreshing := false, refreshDriver := none }
      | none =>
        { s with
          store := emptyStore,
          redirectedToLogin := true,
          notifications := s.notifications ++
            [Notif.error "Session expired. Please login again."],
          tasks := s.tasks.set tid
            { t with phase := Phase.rejected "refresh_error" },
          isRefreshing := false,
          refreshDriver := none }

/-- One event of the interleaved execution: a response delivered to a
task's outstanding request, or the renewal call's outcome. -/
inductive Ev
  | respondOk (tid : Nat) (message : Option String) (payload : String)
  | respondErr (tid : Nat) (r : Option (Nat × Detail))
  | refreshResult (r : Option (String × String))

/-- Run the synchronous handler code an event triggers. -/
def step (s : Sys) : Ev → Sys
  | Ev.respondOk tid m p => handleResponse s tid m p
  | Ev.respondErr tid r => handleError s tid r
  | Ev.refreshResult r => handleRefresh s r

/-- A whole interleaved execution: fold the schedule of delivered
responses. -/
def run (s : Sys) : List Ev → Sys :=
  List.foldl step s

/-- Fresh request descriptor number `i`. -/
def initTask (i : Nat) : Task :=
  { payload := "req" ++ toString i, silent := false, retry := false,
    phase := Phase.idle }

/-- `n` callers dispatch their requests concurrently against storage
`st`: every task goes through the request interceptor once. -/
def initSys (st : Store) (n : Nat) : Sys :=
  List.foldl dispatchTask
    { store := st, isRefreshing := false, pendingRequests := [],
      tasks := (List.range n).map initTask,
      refreshCalls := 0, refreshWith := [], refreshDriver := none,
      nextRequestId := 0, dispatchLog := [], notifications := [],
      defaultsAuthorization := none, redirectedToLogin := false }
    (List.range n)

/-- Observation helpers. -/
def taskPhase (s : Sys) (tid : Nat) : Option Phase :=
  (s.tasks[tid]?).map Task.phase

def taskRetry (s : Sys) (tid : Nat) : Option Bool :=
  (s.tasks[tid]?).map Task.retry

def taskPayload (s : Sys) (tid : Nat) : Option String :=
  (s.tasks[tid]?).map Task.payload

def logTids (s : Sys) : List Nat :=
  s.dispatchLog.map DispatchRecord.tid

def logIds (s : Sys) : List Nat :=
  s.dispatchLog.map (fun r => r.headers.xRequestID)

/-- A task is settled when its promise has resolved or rejected. -/
def settled : Phase → Bool
  | Phase.resolved _ => true
  | Phase.rejected _ => true
  | _ => false

def allSettled (s : Sys) : Bool :=
  s.tasks.all (fun t => settled t.phase)

/-- A state no further delivered event can change. -/
def absorbing (s : Sys) : Prop :=
  ∀ e, step s e = s

/-- The initial storage of the spec's concrete scenario. -/
def st0 : Store :=
  { access_token := some "A1", refresh_token := some "R1",
    user := some "u", current_company_id := some "C7" }

/-! ### Helper lemmas: a list update that keeps an entry is invisible -/

theorem set_eq_of_mem (l : List Task) (i : Nat) (t : Task)
    (h : l[i]? = some t) : l.set i t = l := by
  apply List.ext_getElem?
  intro j
  by_cases hij : i = j
  · subst hij
    rw [List.getElem?_set_eq_of_lt t (List.getElem?_eq_some.mp h).1, h]
  · rw [List.getElem?_set_ne hij]

theorem map_set_of_eq (l : List Task) (i : Nat) (t t2 : Task)
    (f : Task → α) (h : l[i]? = some t) (hf : f t2 = f t) :
    (l.set i t2).map f = l.map f := by
  rw [List.map_set, hf]
  have hm : (l.map f)[i]? = some (f t) := by
    rw [List.getElem?_map, h, Option.map_some']
  exact List.ext_getElem? (fun j => by
    by_cases hij : i = j
    · subst hij
      rw [List.getElem?_set_eq_of_lt (f t)
        (by simpa using (List.getElem?_eq_some.mp h).1), hm]
    · rw [List.getElem?_set_ne hij])

/-! ### Helper lemmas: fields `dispatchTask` leaves untouched -/

theorem dispatchTask_store (s : Sys) (tid : Nat) :
    (dispatchTask s tid).store = s.store := by
  unfold dispatchTask; split <;> rfl

theorem dispatchTask_isRefreshing (s : Sys) (tid : Nat) :
    (dispatchTask s tid).isRefreshing = s.isRefreshing := by
  unfold dispatchTask; split <;> rfl

theorem dispatchTask_pendingRequests (s : Sys) (tid : Nat) :
    (dispatchTask s tid).pendingRequests = s.pendingRequests := by
  unfold dispatchTask; split <;> rfl

theorem dispatchTask_refreshCalls (s : Sys) (tid : Nat) :
    (dispatchTask s tid).refreshCalls = s.refreshCalls := by
  unfold dispatchTask; split <;> rfl

theorem dispatchTask_refreshWith (s : Sys) (tid : Nat) :
    (dispatchTask s tid).refreshWith = s.refreshWith := by
  unfold dispatchTask; split <;> rfl

theorem dispatchTask_refreshDriver (s : Sys) (tid : Nat) :
    (dispatchTask s tid).refreshDriver = s.refreshDriver := by
  unfold dispatchTask; split <;> rfl

theorem dispatchTask_notifications (s : Sys) (tid : Nat) :
    (dispatchTask s tid).notifications = s.notifications := by
  unfold dispatchTask; split <;> rfl

theorem dispatchTask_redirected (s : Sys) (tid : Nat) :
    (dispatchTask s tid).redirectedToLogin = s.redirectedToLogin := by
  unfold dispatchTask; split <;> rfl

theorem dispatchTask_tasksLength (s : Sys) (tid : Nat) :
    (dispatchTask s tid).tasks.length = s.tasks.length := by
  unfold dispatchTask
  split
  · rfl
  · simp [List.length_set]

theorem dispatchTask_mapRetry (s : Sys) (tid : Nat) :
    (dispatchTask s tid).tasks.map Task.retry = s.tasks.map Task.retry := by
  unfold dispatchTask
  split
  · rfl
  next t h => exact map_set_of_eq s.tasks tid t _ Task.retry h rfl

theorem dispatchTask_mapPayload (s : Sys) (tid : Nat) :
    (dispatchTask s tid).tasks.map Task.payload = s.tasks.map Task.payload := by
  unfold dispatchTask
  split
  · rfl
  next t h => exact map_set_of_eq s.tasks tid t _ Task.payload h rfl

theorem dispatchTask_logTids_of_lt (s : Sys) (tid : Nat)
    (h : tid < s.tasks.length) :
    logTids (dispatchTask s tid) = logTids s ++ [tid] := by
  unfold dispatchTask
  have : s.tasks[tid]? = some s.tasks[tid] := List.getElem?_eq_getElem h
  rw [this]
  simp [logTids]

theorem dispatchTask_logIds (s : Sys) (tid : Nat) :
    logIds (dispatchTask s tid) = logIds s ∨
      logIds (dispatchTask s tid) = logIds s ++ [s.nextRequestId] ∧
        (dispatchTask s tid).nextRequestId = s.nextRequestId + 1 := by
  unfold dispatchTask
  split
  · exact Or.inl rfl
  · right
    constructor
    · simp [logIds, mkHeaders]
    · rfl

theorem dispatchTask_log_mem (s : Sys) (tid : Nat) (rec : DispatchRecord)
    (h : rec ∈ (dispatchTask s tid).dispatchLog) :
    rec ∈ s.dispatchLog ∨
      rec.headers.authorization =
          s.store.access_token.map (fun t => "Bearer " ++ t) ∧
        rec.headers.xCompanyId = s.store.current_company_id := by
  unfold dispatchTask at h
  split at h
  · exact Or.inl h
  · rw [List.mem_append] at h
    rcases h with h | h
    · exact Or.inl h
    · right
      simp only [List.mem_singleton] at h
      subst h
      exact ⟨rfl, rfl⟩

/-! ### Helper lemmas: foldl of `dispatchTask` over the waiter queue -/

theorem foldlDispatch_store (l : List Nat) (s : Sys) :
    (List.foldl dispatchTask s l).store = s.store := by
  induction l generalizing s with
  | nil => rfl
  | cons a l ih => rw [List.foldl_cons, ih, dispatchTask_store]

theorem foldlDispatch_refreshCalls (l : List Nat) (s : Sys) :
    (List.foldl dispatchTask s l).refreshCalls = s.refreshCalls := by
  induction l generalizing s with
  | nil => rfl
  | cons a l ih => rw [List.foldl_cons, ih, dispatchTask_refreshCalls]

theorem foldlDispatch_refreshWith (l : List Nat) (s : Sys) :
    (List.foldl dispatchTask s l).refreshWith = s.refreshWith := by
  induction l generalizing s with
  | nil => rfl
  | cons a l ih => rw [List.foldl_cons, ih, dispatchTask_refreshWith]

theorem foldlDispatch_notifications (l : List Nat) (s : Sys) :
    (List.foldl dispatchTask s l).notifications = s.notifications := by
  induction l generalizing s with
  | nil => rfl
  | cons a l ih => rw [List.foldl_cons, ih, dispatchTask_notifications]

theorem foldlDispatch_redirected (l : List Nat) (s : Sys) :
    (List.foldl dispatchTask s l).redirectedToLogin = s.redirectedToLogin := by
  induction l generalizing s with
  | nil => rfl
  | cons a l ih => rw [List.foldl_cons, ih, dispatchTask_redirected]

theorem foldlDispatch_pendingRequests (l : List Nat) (s : Sys) :
    (List.foldl dispatchTask s l).pendingRequests = s.pendingRequests := by
  induction l generalizing s with
  | nil => rfl
  | cons a l ih => rw [List.foldl_cons, ih, dispatchTask_pendingRequests]

theorem foldlDispatch_tasksLength (l : List Nat) (s : Sys) :
    (List.foldl dispatchTask s l).tasks.length = s.tasks.length := by
  induction l generalizing s with
  | nil => rfl
  | cons a l ih => rw [List.foldl_cons, ih, dispatchTask_tasksLength]

theorem foldlDispatch_mapRetry (l : List Nat) (s : Sys) :
    (List.foldl dispatchTask s l).tasks.map Task.retry =
      s.tasks.map Task.retry := by
  induction l generalizing s with
  | nil => rfl
  | cons a l ih => rw [List.foldl_cons, ih, dispatchTask_mapRetry]

theorem foldlDispatch_mapPayload (l : List Nat) (s : Sys) :
    (List.foldl dispatchTask s l).tasks.map Task.payload =
      s.tasks.map Task.payload := by
  induction l generalizing s with
  | nil => rfl
  | cons a l ih => rw [List.foldl_cons, ih, dispatchTask_mapPayload]

theorem foldlDispatch_logTids (l : List Nat) (s : Sys)
    (h : ∀ w ∈ l, w < s.tasks.length) :
    logTids (List.foldl dispatchTask s l) = logTids s ++ l := by
  induction l generalizing s with
  | nil => simp [List.foldl_nil]
  | cons a l ih =>
    rw [List.foldl_cons, ih]
    · rw [dispatchTask_logTids_of_lt s a (h a (List.mem_cons_self a l))]
      simp
    · intro w hw
      rw [dispatchTask_tasksLength]
      exact h w (List.mem_cons_of_mem a hw)

theorem foldlDispatch_log_mem (l : List Nat) (s : Sys) (rec : DispatchRecord)
    (h : rec ∈ (List.foldl dispatchTask s l).dispatchLog) :
    rec ∈ s.dispatchLog ∨
      rec.headers.authorization =
          s.store.access_token.map (fun t => "Bearer " ++ t) ∧
        rec.headers.xCompanyId = s.store.current_company_id := by
  induction l generalizing s with
  | nil => exact Or.inl h
  | cons a l ih =>
    rw [List.foldl_cons] at h
    rcases ih (dispatchTask s a) h with h2 | h2
    · rcases dispatchTask_log_mem s a rec h2 with h3 | h3
      · exact Or.inl h3
      · exact Or.inr h3
    · rw [dispatchTask_store] at h2
      exact Or.inr h2

/-! ### Helper lemmas: what each handler leaves untouched -/

theorem handleResponse_log (s : Sys) (tid : Nat) (m : Option String)
    (p : String) :
    (handleResponse s tid m p).dispatchLog = s.dispatchLog ∧
      (handleResponse s tid m p).nextRequestId = s.nextRequestId := by
  unfold handleResponse handleOk
  split
  · exact ⟨rfl, rfl⟩
  · split
    · exact ⟨rfl, rfl⟩
    · exact ⟨rfl, rfl⟩

theorem handleError_log (s : Sys) (tid : Nat) (r : Option (Nat × Detail)) :
    (handleError s tid r).dispatchLog = s.dispatchLog ∧
      (handleError s tid r).nextRequestId = s.nextRequestId := by
  unfold handleError handleNetfail handleSwitch startRefresh
  split
  · exact ⟨rfl, rfl⟩
  · split
    · split
      · exact ⟨rfl, rfl⟩
      · split
        · split
          · exact ⟨rfl, rfl⟩
          · split
            · exact ⟨rfl, rfl⟩
            · exact ⟨rfl, rfl⟩
        · exact ⟨rfl, rfl⟩
    · exact ⟨rfl, rfl⟩

theorem handleRefresh_refreshCalls (s : Sys) (r : Option (String × String)) :
    (handleRefresh s r).refreshCalls = s.refreshCalls := by
  unfold handleRefresh
  split
  · rfl
  · split
    · rfl
    · split
      · simp [dispatchTask_refreshCalls, foldlDispatch_refreshCalls]
      · rfl

theorem handleRefresh_refreshWith (s : Sys) (r : Option (String × String)) :
    (handleRefresh s r).refreshWith = s.refreshWith := by
  unfold handleRefresh
  split
  · rfl
  · split
    · rfl
    · split
      · simp [dispatchTask_refreshWith, foldlDispatch_refreshWith]
      · rfl

/-- while `isRefreshing` is raised, no delivered error response can issue
a renewal call: the 401 branch only enqueues. -/
theorem handleError_refreshCalls_of_refreshing (s : Sys) (tid : Nat)
    (r : Option (Nat × Detail)) (h : s.isRefreshing = true) :
    (handleError s tid r).refreshCalls = s.refreshCalls := by
  unfold handleError handleNetfail handleSwitch startRefresh
  repeat' split
  all_goals first | rfl | simp_all

theorem handleResponse_refreshCalls (s : Sys) (tid : Nat) (m : Option String)
    (p : String) :
    (handleResponse s tid m p).refreshCalls = s.refreshCalls := by
  unfold handleResponse handleOk
  split
  · rfl
  · split <;> rfl

/-! ### Trace-id freshness invariant -/

/-- Every logged trace id is below the generator, and the log has no
duplicate trace id. -/
def logFresh (s : Sys) : Prop :=
  (logIds s).Nodup ∧ ∀ i ∈ logIds s, i < s.nextRequestId

theorem dispatchTask_cases (s : Sys) (tid : Nat) :
    dispatchTask s tid = s ∨
      logIds (dispatchTask s tid) = logIds s ++ [s.nextRequestId] ∧
        (dispatchTask s tid).nextRequestId = s.nextRequestId + 1 := by
  unfold dispatchTask
  split
  · exact Or.inl rfl
  · right
    constructor
    · simp [logIds, mkHeaders]
    · rfl

theorem logFresh_dispatch (s : Sys) (tid : Nat) (h : logFresh s) :
    logFresh (dispatchTask s tid) := by
  rcases dispatchTask_cases s tid with heq | ⟨hl, hn⟩
  · rw [heq]; exact h
  · constructor
    · rw [hl, List.nodup_append]
      refine ⟨h.1, List.nodup_singleton _, ?_⟩
      intro a ha hb
      rw [List.mem_singleton] at hb
      exact absurd (h.2 a ha) (by rw [hb]; exact lt_irrefl _)
    · intro i hi
      rw [hl, List.mem_append] at hi
      rw [hn]
      rcases hi with hi | hi
      · exact Nat.lt_succ_of_lt (h.2 i hi)
      · rw [List.mem_singleton] at hi
        subst hi
        exact Nat.lt_succ_self _

theorem logFresh_foldl (l : List Nat) (s : Sys) (h : logFresh s) :
    logFresh (List.foldl dispatchTask s l) := by
  induction l generalizing s with
  | nil => exact h
  | cons a l ih => exact ih (dispatchTask s a) (logFresh_dispatch s a h)

theorem logFresh_of_eq (s2 s : Sys) (h1 : s2.dispatchLog = s.dispatchLog)
    (h2 : s2.nextRequestId = s.nextRequestId) (h : logFresh s) :
    logFresh s2 := by
  unfold logFresh logIds at *
  rw [h1, h2]
  exact h

theorem logFresh_update_flags (s : Sys) :
    logFresh { s with isRefreshing := false, refreshDriver := none } ↔
      logFresh s := Iff.rfl

theorem logFresh_update_pending (s : Sys) (pr : List Nat) :
    logFresh { s with pendingRequests := pr } ↔ logFresh s := Iff.rfl

theorem logFresh_update_store (s : Sys) (st : Store) (da : Option String) :
    logFresh { s with store := st, defaultsAuthorization := da } ↔
      logFresh s := Iff.rfl

theorem logFresh_handleRefresh (s : Sys) (r : Option (String × String))
    (h : logFresh s) : logFresh (handleRefresh s r) := by
  unfold handleRefresh
  split
  · exact h
  · split
    · exact h
    · split
      · dsimp only []
        rw [logFresh_update_flags]
        apply logFresh_dispatch
        rw [logFresh_update_pending]
        apply logFresh_foldl
        rw [logFresh_update_store]
        exact h
      · exact logFresh_of_eq _ s rfl rfl h

theorem logFresh_step (s : Sys) (e : Ev) (h : logFresh s) :
    logFresh (step s e) := by
  cases e with
  | respondOk tid m p =>
    exact logFresh_of_eq _ s (handleResponse_log s tid m p).1
      (handleResponse_log s tid m p).2 h
  | respondErr tid r =>
    exact logFresh_of_eq _ s (handleError_log s tid r).1
      (handleError_log s tid r).2 h
  | refreshResult r => exact logFresh_handleRefresh s r h

theorem logFresh_run (s : Sys) (evs : List Ev) (h : logFresh s) :
    logFresh (run s evs) := by
  induction evs generalizing s with
  | nil => exact h
  | cons e evs ih => exact ih (step s e) (logFresh_step s e h)

theorem logFresh_init (st : Store) (n : Nat) : logFresh (initSys st n) := by
  unfold initSys
  apply logFresh_foldl
  exact ⟨List.nodup_nil, by intro i hi; cases hi⟩

/-! ### Descriptor immutability across steps -/

theorem handleResponse_mapPayload (s : Sys) (tid : Nat) (m : Option String)
    (p : String) :
    (handleResponse s tid m p).tasks.map Task.payload =
      s.tasks.map Task.payload := by
  unfold handleResponse handleOk
  split
  · rfl
  next t ht =>
    split
    · exact map_set_of_eq s.tasks tid t _ Task.payload ht rfl
    · rfl

theorem handleError_mapPayload (s : Sys) (tid : Nat)
    (r : Option (Nat × Detail)) :
    (handleError s tid r).tasks.map Task.payload =
      s.tasks.map Task.payload := by
  unfold handleError handleNetfail handleSwitch startRefresh
  split
  · rfl
  next t ht =>
    split
    · split
      · exact map_set_of_eq s.tasks tid t _ Task.payload ht rfl
      · split
        · split
          · exact map_set_of_eq s.tasks tid t _ Task.payload ht rfl
          · split
            · exact map_set_of_eq s.tasks tid t _ Task.payload ht rfl
            · exact map_set_of_eq s.tasks tid t _ Task.payload ht rfl
        · exact map_set_of_eq s.tasks tid t _ Task.payload ht rfl
    · rfl

theorem handleRefresh_mapPayload (s : Sys) (r : Option (String × String)) :
    (handleRefresh s r).tasks.map Task.payload = s.tasks.map Task.payload := by
  unfold handleRefresh
  split
  · rfl
  next tid hd =>
    split
    · rfl
    next t ht =>
      split
      · simp [dispatchTask_mapPayload, foldlDispatch_mapPayload]
      · exact map_set_of_eq s.tasks tid t _ Task.payload ht rfl

theorem step_mapPayload (s : Sys) (e : Ev) :
    (step s e).tasks.map Task.payload = s.tasks.map Task.payload := by
  cases e with
  | respondOk tid m p => exact handleResponse_mapPayload s tid m p
  | respondErr tid r => exact handleError_mapPayload s tid r
  | refreshResult r => exact handleRefresh_mapPayload s r

theorem handleRefresh_mapRetry (s : Sys) (r : Option (String × String)) :
    (handleRefresh s r).tasks.map Task.retry = s.tasks.map Task.retry := by
  unfold handleRefresh
  split
  · rfl
  next tid hd =>
    split
    · rfl
    next t ht =>
      split
      · simp [dispatchTask_mapRetry, foldlDispatch_mapRetry]
      · exact map_set_of_eq s.tasks tid t _ Task.retry ht rfl

theorem taskRetry_eq_map (s : Sys) (w : Nat) :
    taskRetry s w = (s.tasks.map Task.retry)[w]? := by
  unfold taskRetry
  rw [List.getElem?_map]

theorem taskPayload_eq_map (s : Sys) (w : Nat) :
    taskPayload s w = (s.tasks.map Task.payload)[w]? := by
  unfold taskPayload
  rw [List.getElem?_map]

/-! ### Concrete executions -/

/-- Two concurrent requests both receive 401; the renewal call fails. -/
def schedFail : List Ev :=
  [Ev.respondErr 0 (some (401, Detail.noneD)),
   Ev.respondErr 1 (some (401, Detail.noneD)),
   Ev.refreshResult none]

/-- Two concurrent requests both receive 401; the renewal call succeeds
and both replays succeed. -/
def schedOk2 : List Ev :=
  [Ev.respondErr 0 (some (401, Detail.noneD)),
   Ev.respondErr 1 (some (401, Detail.noneD)),
   Ev.refreshResult (some ("A2", "R2")),
   Ev.respondOk 1 none "ok1",
   Ev.respondOk 0 none "ok0"]

/-- Two concurrent requests both receive 401; renewal succeeds; then the
flushed waiter's replay itself receives 401 again. -/
def schedWaiter401 : List Ev :=
  [Ev.respondErr 0 (some (401, Detail.noneD)),
   Ev.respondErr 1 (some (401, Detail.noneD)),
   Ev.refreshResult (some ("A2", "R2")),
   Ev.respondErr 1 (some (401, Detail.noneD))]

/-- The spec's concrete scenario: three concurrent requests each receive
401, renewal succeeds with the new pair, the three replays return 200. -/
def schedScenario : List Ev :=
  [Ev.respondErr 0 (some (401, Detail.noneD)),
   Ev.respondErr 1 (some (401, Detail.noneD)),
   Ev.respondErr 2 (some (401, Detail.noneD)),
   Ev.refreshResult (some ("A2", "R2")),
   Ev.respondOk 1 none "ok1",
   Ev.respondOk 2 none "ok2",
   Ev.respondOk 0 none "ok0"]

/-- A single request receives 401, renewal succeeds, and the replay
(which carries the retried mark) receives 401 again. -/
def schedRetried401 : List Ev :=
  [Ev.respondErr 0 (some (401, Detail.noneD)),
   Ev.refreshResult (some ("A2", "R2")),
   Ev.respondErr 0 (some (401, Detail.noneD))]

/-- The tasks of the state reached by `schedFail`. -/
def failTasks : List Task :=
  [{ payload := "req0", silent := false, retry := true,
     phase := Phase.rejected "refresh_error" },
   { payload := "req1", silent := false, retry := false,
     phase := Phase.blocked }]

theorem schedFail_tasks : (run (initSys st0 2) schedFail).tasks = failTasks :=
  rfl

theorem schedFail_refreshDriver :
    (run (initSys st0 2) schedFail).refreshDriver = none := rfl

/-- After the failed renewal, no further delivered event changes the
state at all: in particular the enqueued waiter can never be resolved or
rejected. -/
theorem schedFail_absorbing : absorbing (run (initSys st0 2) schedFail) := by
  intro e
  cases e with
  | respondOk tid m p =>
    show handleResponse _ tid m p = _
    unfold handleResponse
    rw [schedFail_tasks]
    rcases tid with _ | _ | n <;> simp [failTasks]
  | respondErr tid r =>
    show handleError _ tid r = _
    unfold handleError
    rw [schedFail_tasks]
    rcases tid with _ | _ | n <;> simp [failTasks]
  | refreshResult r =>
    show handleRefresh (run (initSys st0 2) schedFail) r =
      run (initSys st0 2) schedFail
    unfold handleRefresh
    rw [schedFail_refreshDriver]

theorem run_fix_of_absorbing (s : Sys) (h : absorbing s) (evs : List Ev) :
    run s evs = s := by
  induction evs with
  | nil => rfl
  | cons e evs ih => show run (step s e) evs = s; rw [h e]; exact ih

/-! ### Branch equations for the error handler -/

theorem handleResponse_ok_eq (s : Sys) (tid : Nat) (t : Task)
    (m : Option String) (p : String) (ht : s.tasks[tid]? = some t)
    (hp : t.phase = Phase.inFlight) :
    handleResponse s tid m p = handleOk s tid t m p := by
  unfold handleResponse
  rw [ht]
  simp [hp]

theorem handleError_netfail_eq (s : Sys) (tid : Nat) (t : Task)
    (ht : s.tasks[tid]? = some t) (hp : t.phase = Phase.inFlight) :
    handleError s tid none = handleNetfail s tid t := by
  unfold handleError
  rw [ht]
  simp [hp]

theorem handleError_enqueue (s : Sys) (tid : Nat) (d : Detail) (t : Task)
    (ht : s.tasks[tid]? = some t) (hp : t.phase = Phase.inFlight)
    (hr : t.retry = false) (hir : s.isRefreshing = true) :
    handleError s tid (some (401, d)) =
      { s with pendingRequests := s.pendingRequests ++ [tid],
               tasks := s.tasks.set tid { t with phase := Phase.blocked } } := by
  unfold handleError
  rw [ht]
  simp [hp, hr, hir]

theorem handleError_retried401 (s : Sys) (tid : Nat) (d : Detail) (t : Task)
    (ht : s.tasks[tid]? = some t) (hp : t.phase = Phase.inFlight)
    (hr : t.retry = true) :
    handleError s tid (some (401, d)) = handleSwitch s tid t 401 d := by
  unfold handleError
  rw [ht]
  simp [hp, hr, handleSwitch]

theorem handleError_switch_eq (s : Sys) (tid : Nat) (status : Nat)
    (d : Detail) (t : Task) (ht : s.tasks[tid]? = some t)
    (hp : t.phase = Phase.inFlight) (hne : status ≠ 401) :
    handleError s tid (some (status, d)) = handleSwitch s tid t status d := by
  unfold handleError
  rw [ht]
  simp [hp, hne, handleSwitch]

theorem handleError_noToken (s : Sys) (tid : Nat) (d : Detail) (t : Task)
    (ht : s.tasks[tid]? = some t) (hp : t.phase = Phase.inFlight)
    (hr : t.retry = false) (hir : s.isRefreshing = false)
    (hrt : s.store.refresh_token = none) :
    handleError s tid (some (401, d)) =
      { s with
        isRefreshing := false,
        store := emptyStore,
        redirectedToLogin := true,
        notifications := s.notifications ++
          [Notif.error "Session expired. Please login again."],
        tasks := s.tasks.set tid
          { t with
            retry := true,
            phase := Phase.rejected "no_refresh_token" } } := by
  unfold handleError startRefresh
  rw [ht]
  simp [hp, hr, hir, hrt]

theorem handleRefresh_fail_eq (s : Sys) (tid : Nat) (t : Task)
    (hd : s.refreshDriver = some tid) (ht : s.tasks[tid]? = some t) :
    handleRefresh s none =
      { s with
        store := emptyStore,
        redirectedToLogin := true,
        notifications := s.notifications ++
          [Notif.error "Session expired. Please login again."],
        tasks := s.tasks.set tid
          { t with phase := Phase.rejected "refresh_error" },
        isRefreshing := false,
        refreshDriver := none } := by
  unfold handleRefresh
  rw [hd]
  simp [ht]

theorem handleRefresh_ok_eq (s : Sys) (tid : Nat) (t : Task) (a2 r2 : String)
    (hd : s.refreshDriver = some tid) (ht : s.tasks[tid]? = some t) :
    handleRefresh s (some (a2, r2)) =
      { dispatchTask
          { (List.foldl dispatchTask
              { s with
                store := { s.store with
                           access_token := some a2,
                           refresh_token := some r2 },
                defaultsAuthorization := some ("Bearer " ++ a2) }
              s.pendingRequests) with
            pendingRequests := ([] : List Nat) } tid
        with
        isRefreshing := false,
        refreshDriver := none } := by
  unfold handleRefresh
  rw [hd]
  simp [ht]

/-! ### Projections through the record wrappers of the success branch -/

theorem update_flags_store (s : Sys) :
    ({ s with isRefreshing := false, refreshDriver := none } : Sys).store =
      s.store := rfl

theorem update_flags_logTids (s : Sys) :
    logTids { s with isRefreshing := false, refreshDriver := none } =
      logTids s := rfl

theorem update_flags_dispatchLog (s : Sys) :
    ({ s with isRefreshing := false, refreshDriver := none } :
      Sys).dispatchLog = s.dispatchLog := rfl

theorem update_flags_pendingRequests (s : Sys) :
    ({ s with isRefreshing := false, refreshDriver := none } :
      Sys).pendingRequests = s.pendingRequests := rfl

theorem update_pending_store (s : Sys) (pr : List Nat) :
    ({ s with pendingRequests := pr } : Sys).store = s.store := rfl

theorem update_pending_logTids (s : Sys) (pr : List Nat) :
    logTids { s with pendingRequests := pr } = logTids s := rfl

theorem update_pending_dispatchLog (s : Sys) (pr : List Nat) :
    ({ s with pendingRequests := pr } : Sys).dispatchLog =
      s.dispatchLog := rfl

theorem update_pending_tasksLength (s : Sys) (pr : List Nat) :
    ({ s with pendingRequests := pr } : Sys).tasks.length =
      s.tasks.length := rfl

theorem update_storeDa_logTids (s : Sys) (st : Store) (da : Option String) :
    logTids { s with store := st, defaultsAuthorization := da } =
      logTids s := rfl

theorem update_storeDa_dispatchLog (s : Sys) (st : Store)
    (da : Option String) :
    ({ s with store := st, defaultsAuthorization := da } :
      Sys).dispatchLog = s.dispatchLog := rfl

/-! ### Consequences for the success branch -/

theorem handleRefresh_ok_store (s : Sys) (tid : Nat) (t : Task)
    (a2 r2 : String) (hd : s.refreshDriver = some tid)
    (ht : s.tasks[tid]? = some t) :
    (handleRefresh s (some (a2, r2))).store =
      { s.store with access_token := some a2, refresh_token := some r2 } := by
  rw [handleRefresh_ok_eq s tid t a2 r2 hd ht, update_flags_store,
    dispatchTask_store, update_pending_store, foldlDispatch_store]

theorem handleRefresh_ok_pending (s : Sys) (tid : Nat) (t : Task)
    (a2 r2 : String) (hd : s.refreshDriver = some tid)
    (ht : s.tasks[tid]? = some t) :
    (handleRefresh s (some (a2, r2))).pendingRequests = [] := by
  rw [handleRefresh_ok_eq s tid t a2 r2 hd ht, update_flags_pendingRequests,
    dispatchTask_pendingRequests]

theorem handleRefresh_ok_logTids (s : Sys) (tid : Nat) (t : Task)
    (a2 r2 : String) (hd : s.refreshDriver = some tid)
    (ht : s.tasks[tid]? = some t)
    (hw : ∀ w ∈ s.pendingRequests, w < s.tasks.length) :
    logTids (handleRefresh s (some (a2, r2))) =
      logTids s ++ s.pendingRequests ++ [tid] := by
  rw [handleRefresh_ok_eq s tid t a2 r2 hd ht, update_flags_logTids,
    dispatchTask_logTids_of_lt, update_pending_logTids, foldlDispatch_logTids,
    update_storeDa_logTids]
  · intro w hw2
    exact hw w hw2
  · simp only [foldlDispatch_tasksLength]
    exact (List.getElem?_eq_some.mp ht).1

theorem handleRefresh_ok_log_mem (s : Sys) (tid : Nat) (t : Task)
    (a2 r2 : String) (rec : DispatchRecord)
    (hd : s.refreshDriver = some tid) (ht : s.tasks[tid]? = some t)
    (h : rec ∈ (handleRefresh s (some (a2, r2))).dispatchLog) :
    rec ∈ s.dispatchLog ∨
      rec.headers.authorization = some ("Bearer " ++ a2) := by
  rw [handleRefresh_ok_eq s tid t a2 r2 hd ht, update_flags_dispatchLog] at h
  rcases dispatchTask_log_mem _ _ _ h with h2 | h2
  · rw [update_pending_dispatchLog] at h2
    rcases foldlDispatch_log_mem _ _ _ h2 with h3 | h3
    · rw [update_storeDa_dispatchLog] at h3
      exact Or.inl h3
    · exact Or.inr h3.1
  · rw [update_pending_store, foldlDispatch_store] at h2
    exact Or.inr h2.1

/-! ### Counterexamples -/

/-- C1 (counterexample): in the execution where two concurrently
dispatched requests each receive a 401 and the renewal call fails,
exactly one renewal call is issued, but the enqueued waiter (task 1) is
left in the blocked phase, and the final state is absorbing — no further
event can ever settle it. This refutes the claim's conjunct that all N
requests eventually resolve. -/
theorem renewal_failure_leaves_waiter_unresolved_cex :
    (run (initSys st0 2) schedFail).refreshCalls = 1 ∧
      taskPhase (run (initSys st0 2) schedFail) 1 = some Phase.blocked ∧
      allSettled (run (initSys st0 2) schedFail) = false ∧
      absorbing (run (initSys st0 2) schedFail) :=
  ⟨rfl, rfl, rfl, schedFail_absorbing⟩

/-- C2 (counterexample): after the failed renewal of `schedFail` the
credential store is indeed cleared, but the waiter enqueued during the
renewal is not rejected: it is still blocked, still sits in
`pendingRequests`, and the state is absorbing, so it stays unresolved
forever. This refutes "every waiter is rejected … no waiter is left
unresolved". -/
theorem failure_fanout_waiters_not_rejected_cex :
    (run (initSys st0 2) schedFail).store = emptyStore ∧
      (run (initSys st0 2) schedFail).pendingRequests = [1] ∧
      taskPhase (run (initSys st0 2) schedFail) 1 = some Phase.blocked ∧
      (∀ evs, run (run (initSys st0 2) schedFail) evs =
        run (initSys st0 2) schedFail) :=
  ⟨rfl, rfl, rfl, fun evs =>
    run_fix_of_absorbing _ schedFail_absorbing evs⟩

/-- C3 (counterexample): a waiter flushed by a successful renewal is
re-dispatched with its retried mark still unset, so when its replay
itself returns 401 it starts a second renewal-and-retry cycle: after
`schedWaiter401`, two renewal calls have been issued. This refutes "a
replay that itself returns 401 … never triggers another
renewal-and-retry cycle … for every queued waiter request alike". -/
theorem waiter_replay_second_renewal_cex :
    taskRetry (run (initSys st0 2)
        (List.take 3 schedWaiter401)) 1 = some false ∧
      (run (initSys st0 2) schedWaiter401).refreshCalls = 2 ∧
      (run (initSys st0 2) schedWaiter401).refreshWith = ["R1", "R2"] := by
  refine ⟨?_, ?_, ?_⟩ <;> rfl

/-- C4 (counterexample): in the three-request scenario the driver (task
0, the first caller to observe 401) is replayed after both waiters: the
dispatch order is [0,1,2] initially and then [1,2,0] for the replays, so
the resolution order is not the FIFO order in which the callers were
enqueued (the driver is reordered behind later callers). -/
theorem driver_replayed_last_cex :
    logTids (run (initSys st0 3) (List.take 4 schedScenario)) =
        [0, 1, 2, 1, 2, 0] ∧
      List.drop 3 (logTids (run (initSys st0 3)
        (List.take 4 schedScenario))) ≠ [0, 1, 2] := by
  refine ⟨?_, ?_⟩
  · rfl
  · decide

/-- C5 (counterexample): a 401 delivered to an already-retried request is
handled by the default branch of the status switch: the caller's promise
is rejected with the raw error and a generic toast, but there is no
session teardown — the credential store still holds the renewed pair and
no redirect to re-authentication happens. This refutes "surfaced as
SessionTerminated and triggers forced re-login". -/
theorem retried_401_no_forced_relogin_cex :
    taskRetry (run (initSys st0 1) schedRetried401) 0 = some true ∧
      taskPhase (run (initSys st0 1) schedRetried401) 0 =
        some (Phase.rejected "http_401") ∧
      (run (initSys st0 1) schedRetried401).redirectedToLogin = false ∧
      (run (initSys st0 1) schedRetried401).store.access_token =
        some "A2" ∧
      (run (initSys st0 1) schedRetried401).notifications =
        [Notif.error "An error occurred"] := by
  refine ⟨?_, ?_, ?_, ?_, ?_⟩ <;> rfl

/-- C8 (counterexample): a 422 whose body detail is an empty list is a
classified validation failure, yet the switch emits no notification at
all — the sink is not informed. (The frame part of the claim does hold:
nothing else changes.) -/
theorem validation_silent_rejection_cex :
    classify (some (422, Detail.listD [])) = ErrorKind.validation [] ∧
      (run (initSys st0 1) [Ev.respondErr 0 (some (422, Detail.listD []))]
        ).notifications = [] ∧
      taskPhase (run (initSys st0 1)
          [Ev.respondErr 0 (some (422, Detail.listD []))]) 0 =
        some (Phase.rejected "http_422") := by
  refine ⟨?_, ?_, ?_⟩ <;> rfl

/-- C10 (counterexample): a 2xx response whose body contains the message
field holding the empty string, on a non-silent request, produces no
success notification (the source tests the field for truthiness, not
presence), refuting the claimed "if and only if the body contains a
message field and the request was not marked silent". -/
theorem empty_message_no_toast_cex :
    (run (initSys st0 1) [Ev.respondOk 0 (some "") "p"]).notifications
        = [] ∧
      taskPhase (run (initSys st0 1) [Ev.respondOk 0 (some "") "p"]) 0 =
        some (Phase.resolved "p") := by
  refine ⟨?_, ?_⟩ <;> rfl

/-! ### Amended and confirmed claims -/

/-- C1 (amended): single-flight holds — while a renewal is in flight
(`isRefreshing` raised) no delivered event increases the count of
renewal calls, and an unretried request observing a 401 at that time is
enqueued as a waiter (queue grows by exactly that task, task becomes
blocked) without issuing a renewal call; when the renewal succeeds all
requests settle (two-request execution `schedOk2`, one renewal call).
The claim's unconditional "all N requests eventually resolve" holds only
when the renewal succeeds — on failure the waiters never resolve (see
the counterexample). -/
theorem single_flight_amended :
    (∀ s e, s.isRefreshing = true →
      (step s e).refreshCalls = s.refreshCalls) ∧
    (∀ s tid d t, s.isRefreshing = true → s.tasks[tid]? = some t →
      t.phase = Phase.inFlight → t.retry = false →
      (handleError s tid (some (401, d))).pendingRequests =
          s.pendingRequests ++ [tid] ∧
        taskPhase (handleError s tid (some (401, d))) tid =
          some Phase.blocked ∧
        (handleError s tid (some (401, d))).refreshCalls =
          s.refreshCalls) ∧
    ((run (initSys st0 2) schedOk2).refreshCalls = 1 ∧
      allSettled (run (initSys st0 2) schedOk2) = true) := by
  refine ⟨?_, ?_, rfl, rfl⟩
  · intro s e h
    cases e with
    | respondOk tid m p => exact handleResponse_refreshCalls s tid m p
    | respondErr tid r => exact handleError_refreshCalls_of_refreshing s tid r h
    | refreshResult r => exact handleRefresh_refreshCalls s r
  · intro s tid d t hir ht hp hr
    rw [handleError_enqueue s tid d t ht hp hr hir]
    refine ⟨rfl, ?_, rfl⟩
    show ((s.tasks.set tid { t with phase := Phase.blocked })[tid]?).map
      Task.phase = some Phase.blocked
    rw [List.getElem?_set_eq_of_lt _ (List.getElem?_eq_some.mp ht).1]
    rfl

/-- Witness for `single_flight_amended`: after the driver's 401 in
`schedFail`, the second caller's 401 is enqueued without a second
renewal call. -/
theorem single_flight_amended_witness :
    (step (run (initSys st0 2) (List.take 1 schedFail))
        (Ev.respondErr 1 (some (401, Detail.noneD)))).refreshCalls =
      (run (initSys st0 2) (List.take 1 schedFail)).refreshCalls ∧
    (handleError (run (initSys st0 2) (List.take 1 schedFail)) 1
        (some (401, Detail.noneD))).pendingRequests =
      (run (initSys st0 2) (List.take 1 schedFail)).pendingRequests ++
        [1] :=
  ⟨single_flight_amended.1 _ _ rfl,
   (single_flight_amended.2.1 (run (initSys st0 2) (List.take 1 schedFail))
      1 Detail.noneD
      { payload := "req1", silent := false, retry := false,
        phase := Phase.inFlight } rfl rfl rfl rfl).1⟩

/-- C2 (amended): if the renewal call fails, the credential store is
cleared, the sink is informed and the user redirected, and the driver is
rejected; but the waiters enqueued during the renewal are NOT rejected —
the pending queue and every other task are left unchanged, so the
waiters stay unresolved. -/
theorem failure_fanout_amended :
    ∀ s tid t, s.refreshDriver = some tid → s.tasks[tid]? = some t →
      (handleRefresh s none).store = emptyStore ∧
      (handleRefresh s none).redirectedToLogin = true ∧
      (handleRefresh s none).isRefreshing = false ∧
      taskPhase (handleRefresh s none) tid =
        some (Phase.rejected "refresh_error") ∧
      (handleRefresh s none).pendingRequests = s.pendingRequests ∧
      (∀ w, w ≠ tid → (handleRefresh s none).tasks[w]? = s.tasks[w]?) := by
  intro s tid t hd ht
  rw [handleRefresh_fail_eq s tid t hd ht]
  refine ⟨rfl, rfl, rfl, ?_, rfl, ?_⟩
  · show ((s.tasks.set tid
      { t with phase := Phase.rejected "refresh_error" })[tid]?).map
        Task.phase = some (Phase.rejected "refresh_error")
    rw [List.getElem?_set_eq_of_lt _ (List.getElem?_eq_some.mp ht).1]
    rfl
  · intro w hw
    show (s.tasks.set tid
      { t with phase := Phase.rejected "refresh_error" })[w]? = s.tasks[w]?
    exact List.getElem?_set_ne (Ne.symm hw)

/-- Witness for `failure_fanout_amended` at the state reached after both
401s of `schedFail`. -/
theorem failure_fanout_amended_witness :
    (handleRefresh (run (initSys st0 2) (List.take 2 schedFail))
        none).store = emptyStore ∧
      (handleRefresh (run (initSys st0 2) (List.take 2 schedFail))
          none).pendingRequests =
        (run (initSys st0 2) (List.take 2 schedFail)).pendingRequests :=
  ⟨(failure_fanout_amended (run (initSys st0 2) (List.take 2 schedFail)) 0
      { payload := "req0", silent := false, retry := true,
        phase := Phase.awaitingRefresh } rfl rfl).1,
   (failure_fanout_amended (run (initSys st0 2) (List.take 2 schedFail)) 0
      { payload := "req0", silent := false, retry := true,
        phase := Phase.awaitingRefresh } rfl rfl).2.2.2.2.1⟩

/-- C3 (amended): the retried mark works for the driver — a 401 on an
already-retried request is rejected with no further renewal call; but
the mark is only ever stamped on the driver: a successful renewal
re-dispatches every task with its retried flag unchanged, so a flushed
waiter replays with the flag still false and a 401 on that replay starts
a second renewal-and-retry cycle (two renewal calls in
`schedWaiter401`). -/
theorem no_double_retry_amended :
    (∀ s tid d t, s.tasks[tid]? = some t → t.phase = Phase.inFlight →
      t.retry = true →
      (handleError s tid (some (401, d))).refreshCalls = s.refreshCalls ∧
      (handleError s tid (some (401, d))).refreshWith = s.refreshWith ∧
      taskPhase (handleError s tid (some (401, d))) tid =
        some (Phase.rejected "http_401")) ∧
    (∀ s a2 r2 w, taskRetry (handleRefresh s (some (a2, r2))) w =
      taskRetry s w) ∧
    (run (initSys st0 2) schedWaiter401).refreshCalls = 2 := by
  refine ⟨?_, ?_, rfl⟩
  · intro s tid d t ht hp hr
    rw [handleError_retried401 s tid d t ht hp hr]
    refine ⟨rfl, rfl, ?_⟩
    show ((s.tasks.set tid
      { t with phase := Phase.rejected ("http_" ++ toString 401) })[tid]?).map
        Task.phase = some (Phase.rejected "http_401")
    rw [List.getElem?_set_eq_of_lt _ (List.getElem?_eq_some.mp ht).1]
    rfl
  · intro s a2 r2 w
    rw [taskRetry_eq_map, taskRetry_eq_map, handleRefresh_mapRetry]

/-- Witness for `no_double_retry_amended`: the driver's replay 401 after
`schedRetried401`'s renewal, and the waiter's unchanged flag across the
renewal of `schedFail`'s first two events. -/
theorem no_double_retry_amended_witness :
    (handleError (run (initSys st0 1) (List.take 2 schedRetried401)) 0
        (some (401, Detail.noneD))).refreshCalls =
      (run (initSys st0 1) (List.take 2 schedRetried401)).refreshCalls ∧
    taskRetry (handleRefresh (run (initSys st0 2) (List.take 2 schedFail))
        (some ("A2", "R2"))) 1 =
      taskRetry (run (initSys st0 2) (List.take 2 schedFail)) 1 :=
  ⟨(no_double_retry_amended.1 (run (initSys st0 1)
        (List.take 2 schedRetried401)) 0 Detail.noneD
      { payload := "req0", silent := false, retry := true,
        phase := Phase.inFlight } rfl rfl rfl).1,
   no_double_retry_amended.2.1 (run (initSys st0 2) (List.take 2 schedFail))
     "A2" "R2" 1⟩

/-- C4 (amended): on renewal success the credential store is updated
with the new pair in one synchronous step (never one token without the
other), the waiter queue is emptied and the flag lowered, every
re-dispatched replay carries the new access token as bearer credential,
and the replays are issued in FIFO enqueue order for the waiters
followed by the driver LAST — the claim's FIFO "including the driver"
fails, since the driver, the first caller to observe expiry, is replayed
after all waiters (see the counterexample). In the concrete scenario the
renewal is called once with R1, all three replays carry A2, every
request resolves, and the store ends holding {A2, R2}. -/
theorem renewal_success_amended :
    (∀ s tid t a2 r2, s.refreshDriver = some tid → s.tasks[tid]? = some t →
      (handleRefresh s (some (a2, r2))).store =
        { s.store with access_token := some a2,
                       refresh_token := some r2 } ∧
      (handleRefresh s (some (a2, r2))).pendingRequests = [] ∧
      (handleRefresh s (some (a2, r2))).isRefreshing = false) ∧
    (∀ s tid t a2 r2, s.refreshDriver = some tid → s.tasks[tid]? = some t →
      (∀ w ∈ s.pendingRequests, w < s.tasks.length) →
      logTids (handleRefresh s (some (a2, r2))) =
        logTids s ++ s.pendingRequests ++ [tid]) ∧
    (∀ s tid t a2 r2 rec, s.refreshDriver = some tid →
      s.tasks[tid]? = some t →
      rec ∈ (handleRefresh s (some (a2, r2))).dispatchLog →
      rec ∈ s.dispatchLog ∨
        rec.headers.authorization = some ("Bearer " ++ a2)) ∧
    ((run (initSys st0 3) schedScenario).store.access_token = some "A2" ∧
      (run (initSys st0 3) schedScenario).store.refresh_token =
        some "R2" ∧
      (run (initSys st0 3) schedScenario).refreshCalls = 1 ∧
      (run (initSys st0 3) schedScenario).refreshWith = ["R1"] ∧
      taskPhase (run (initSys st0 3) schedScenario) 0 =
        some (Phase.resolved "ok0") ∧
      taskPhase (run (initSys st0 3) schedScenario) 1 =
        some (Phase.resolved "ok1") ∧
      taskPhase (run (initSys st0 3) schedScenario) 2 =
        some (Phase.resolved "ok2") ∧
      (List.drop 3 (run (initSys st0 3) schedScenario).dispatchLog).map
          (fun rec => rec.headers.authorization) =
        [some "Bearer A2", some "Bearer A2", some "Bearer A2"] ∧
      logTids (run (initSys st0 3) schedScenario) = [0, 1, 2, 1, 2, 0]) := by
  refine ⟨?_, ?_, ?_, rfl, rfl, rfl, rfl, rfl, rfl, rfl, rfl, rfl⟩
  · intro s tid t a2 r2 hd ht
    refine ⟨handleRefresh_ok_store s tid t a2 r2 hd ht,
      handleRefresh_ok_pending s tid t a2 r2 hd ht, ?_⟩
    rw [handleRefresh_ok_eq s tid t a2 r2 hd ht]
  · intro s tid t a2 r2 hd ht hw
    exact handleRefresh_ok_logTids s tid t a2 r2 hd ht hw
  · intro s tid t a2 r2 rec hd ht h
    exact handleRefresh_ok_log_mem s tid t a2 r2 rec hd ht h

/-- Witness for `renewal_success_amended` at the state after the two
401s of `schedFail`: renewal success stores the pair, empties the queue,
orders replays waiter-then-driver, and every new dispatch carries the
new token. -/
theorem renewal_success_amended_witness :
    (handleRefresh (run (initSys st0 2) (List.take 2 schedFail))
        (some ("A2", "R2"))).store =
      { (run (initSys st0 2) (List.take 2 schedFail)).store with
        access_token := some "A2", refresh_token := some "R2" } ∧
    logTids (handleRefresh (run (initSys st0 2) (List.take 2 schedFail))
        (some ("A2", "R2"))) =
      logTids (run (initSys st0 2) (List.take 2 schedFail)) ++
        (run (initSys st0 2) (List.take 2 schedFail)).pendingRequests ++
        [0] :=
  ⟨(renewal_success_amended.1 (run (initSys st0 2) (List.take 2 schedFail))
      0 { payload := "req0", silent := false, retry := true,
          phase := Phase.awaitingRefresh } "A2" "R2" rfl rfl).1,
   renewal_success_amended.2.1 (run (initSys st0 2) (List.take 2 schedFail))
     0 { payload := "req0", silent := false, retry := true,
         phase := Phase.awaitingRefresh } "A2" "R2" rfl rfl (by decide)⟩

/-- C5 (amended): a 401 delivered to an already-retried request is
rejected through the status switch's default branch with a generic
error notification; there is no session teardown — the credential store,
the redirect flag and the coordinator state are all unchanged. Forced
re-login (teardown + redirect) happens only when the renewal call itself
fails or no refresh token is stored. -/
theorem retried_401_amended :
    ∀ s tid d t, s.tasks[tid]? = some t → t.phase = Phase.inFlight →
      t.retry = true →
      (handleError s tid (some (401, d))).store = s.store ∧
      (handleError s tid (some (401, d))).redirectedToLogin =
        s.redirectedToLogin ∧
      (handleError s tid (some (401, d))).isRefreshing = s.isRefreshing ∧
      (handleError s tid (some (401, d))).refreshCalls = s.refreshCalls ∧
      (handleError s tid (some (401, d))).pendingRequests =
        s.pendingRequests ∧
      taskPhase (handleError s tid (some (401, d))) tid =
        some (Phase.rejected "http_401") ∧
      (handleError s tid (some (401, d))).notifications =
        s.notifications ++ notifsFor (classify (some (401, d))) ∧
      classify (some (401, d)) =
        ErrorKind.generic (detailMsg d "An error occurred") := by
  intro s tid d t ht hp hr
  rw [handleError_retried401 s tid d t ht hp hr]
  refine ⟨rfl, rfl, rfl, rfl, rfl, ?_, rfl, rfl⟩
  show ((s.tasks.set tid
    { t with phase := Phase.rejected ("http_" ++ toString 401) })[tid]?).map
      Task.phase = some (Phase.rejected "http_401")
  rw [List.getElem?_set_eq_of_lt _ (List.getElem?_eq_some.mp ht).1]
  rfl

/-- Witness for `retried_401_amended` at the replayed driver of
`schedRetried401`. -/
theorem retried_401_amended_witness :
    (handleError (run (initSys st0 1) (List.take 2 schedRetried401)) 0
        (some (401, Detail.noneD))).store =
      (run (initSys st0 1) (List.take 2 schedRetried401)).store ∧
    (handleError (run (initSys st0 1) (List.take 2 schedRetried401)) 0
        (some (401, Detail.noneD))).redirectedToLogin =
      (run (initSys st0 1) (List.take 2 schedRetried401)).redirectedToLogin :=
  ⟨(retried_401_amended (run (initSys st0 1) (List.take 2 schedRetried401))
      0 Detail.noneD
      { payload := "req0", silent := false, retry := true,
        phase := Phase.inFlight } rfl rfl rfl).1,
   (retried_401_amended (run (initSys st0 1) (List.take 2 schedRetried401))
      0 Detail.noneD
      { payload := "req0", silent := false, retry := true,
        phase := Phase.inFlight } rfl rfl rfl).2.1⟩

/-- C6 (confirmed): classification is a total pure function matching the
status-code table: no response maps to NetworkUnavailable (bypassing the
table), 400 to BadRequest with the server-provided message, 403 to
Forbidden, 404 to NotFound, 422 with a list detail to Validation with
the field/message pairs and with a string detail to a plain-message
failure, 429 to RateLimited, 500 to ServerError, 502/503/504 to
ServiceUnavailable; every status outside the table yields the classified
generic failure; and the error handler's notifications are exactly the
classification's toasts for every response routed to the switch. -/
theorem classification_table :
    classify none = ErrorKind.networkUnavailable ∧
    (∀ d, classify (some (400, d)) =
      ErrorKind.badRequest (detailMsg d "Bad request")) ∧
    (∀ d, classify (some (403, d)) = ErrorKind.forbidden) ∧
    (∀ d, classify (some (404, d)) = ErrorKind.notFound) ∧
    (∀ l, classify (some (422, Detail.listD l)) = ErrorKind.validation l) ∧
    (∀ m, classify (some (422, Detail.strD m)) =
      ErrorKind.plainMessage m) ∧
    (∀ d, classify (some (429, d)) = ErrorKind.rateLimited) ∧
    (∀ d, classify (some (500, d)) = ErrorKind.serverError) ∧
    (∀ st d, st = 502 ∨ st = 503 ∨ st = 504 →
      classify (some (st, d)) = ErrorKind.serviceUnavailable) ∧
    (∀ st d, st ∉ ([400, 403, 404, 422, 429, 500, 502, 503, 504] :
        List Nat) →
      classify (some (st, d)) =
        ErrorKind.generic (detailMsg d "An error occurred")) ∧
    (∀ s tid t status d, s.tasks[tid]? = some t →
      t.phase = Phase.inFlight → (status = 401 → t.retry = true) →
      (handleError s tid (some (status, d))).notifications =
        s.notifications ++ notifsFor (classify (some (status, d)))) := by
  refine ⟨rfl, fun d => rfl, fun d => rfl, fun d => rfl, fun l => rfl,
    fun m => rfl, fun d => rfl, fun d => rfl, ?_, ?_, ?_⟩
  · intro st d h
    rcases h with rfl | rfl | rfl <;> rfl
  · intro st d h
    simp only [List.mem_cons, List.mem_singleton, not_or] at h
    obtain ⟨h1, h2, h3, h4, h5, h6, h7, h8, h9⟩ := h
    simp [classify, h1, h2, h3, h4, h5, h6, h7, h8, h9]
  · intro s tid t status d ht hp himp
    by_cases h4 : status = 401
    · subst h4
      rw [handleError_retried401 s tid d t ht hp (himp rfl)]
      rfl
    · rw [handleError_switch_eq s tid status d t ht hp h4]
      rfl

/-- Witness for `classification_table` at concrete inputs: a 503, an
untabulated 418, and a 404 flowing through the handler. -/
theorem classification_table_witness :
    classify (some (503, Detail.noneD)) = ErrorKind.serviceUnavailable ∧
    classify (some (418, Detail.strD "teapot")) =
      ErrorKind.generic "teapot" ∧
    (handleError (initSys st0 1) 0 (some (404, Detail.noneD))
        ).notifications =
      (initSys st0 1).notifications ++
        notifsFor (classify (some (404, Detail.noneD))) :=
  ⟨classification_table.2.2.2.2.2.2.2.2.1 503 Detail.noneD
      (Or.inr (Or.inl rfl)),
   classification_table.2.2.2.2.2.2.2.2.2.1 418 (Detail.strD "teapot")
      (by decide),
   classification_table.2.2.2.2.2.2.2.2.2.2 (initSys st0 1) 0
      { payload := "req0", silent := false, retry := false,
        phase := Phase.inFlight } 404 Detail.noneD rfl rfl
      (fun h => absurd h (by decide))⟩

/-- C7 (confirmed): a 401 handled while no refresh token is stored (as
after a renewal failure cleared the store) fails immediately in the same
synchronous step — no renewal call is issued (call count and the list of
tokens sent are unchanged), the request is rejected, the flag is lowered
again, the storage is (re)cleared and the user is redirected to login. -/
theorem unauthenticated_fast_fail :
    ∀ s tid d t, s.store.refresh_token = none → s.isRefreshing = false →
      s.tasks[tid]? = some t → t.phase = Phase.inFlight →
      t.retry = false →
      (handleError s tid (some (401, d))).refreshCalls = s.refreshCalls ∧
      (handleError s tid (some (401, d))).refreshWith = s.refreshWith ∧
      (handleError s tid (some (401, d))).refreshDriver =
        s.refreshDriver ∧
      taskPhase (handleError s tid (some (401, d))) tid =
        some (Phase.rejected "no_refresh_token") ∧
      (handleError s tid (some (401, d))).isRefreshing = false ∧
      (handleError s tid (some (401, d))).redirectedToLogin = true ∧
      (handleError s tid (some (401, d))).store = emptyStore := by
  intro s tid d t hrt hir ht hp hr
  rw [handleError_noToken s tid d t ht hp hr hir hrt]
  refine ⟨rfl, rfl, rfl, ?_, rfl, rfl, rfl⟩
  show ((s.tasks.set tid
    { t with retry := true,
             phase := Phase.rejected "no_refresh_token" })[tid]?).map
      Task.phase = some (Phase.rejected "no_refresh_token")
  rw [List.getElem?_set_eq_of_lt _ (List.getElem?_eq_some.mp ht).1]
  rfl

/-- Witness for `unauthenticated_fast_fail`: a fresh dispatch against a
storage with no refresh token, receiving 401. -/
theorem unauthenticated_fast_fail_witness :
    (handleError (initSys
        { access_token := some "A1", refresh_token := none,
          user := some "u", current_company_id := some "C7" } 1) 0
        (some (401, Detail.noneD))).refreshCalls =
      (initSys
        { access_token := some "A1", refresh_token := none,
          user := some "u", current_company_id := some "C7" } 1
        ).refreshCalls ∧
    (handleError (initSys
        { access_token := some "A1", refresh_token := none,
          user := some "u", current_company_id := some "C7" } 1) 0
        (some (401, Detail.noneD))).redirectedToLogin = true :=
  ⟨(unauthenticated_fast_fail (initSys
      { access_token := some "A1", refresh_token := none,
        user := some "u", current_company_id := some "C7" } 1) 0
      Detail.noneD
      { payload := "req0", silent := false, retry := false,
        phase := Phase.inFlight } rfl rfl rfl rfl rfl).1,
   (unauthenticated_fast_fail (initSys
      { access_token := some "A1", refresh_token := none,
        user := some "u", current_company_id := some "C7" } 1) 0
      Detail.noneD
      { payload := "req0", silent := false, retry := false,
        phase := Phase.inFlight } rfl rfl rfl rfl rfl).2.2.2.2.2.1⟩

/-- C8 (amended): every classified failure outside the 401/renewal path
is returned to the caller with no mutation of the credential store or
the coordinator state (flag, queue, call count, driver) and no redirect;
the sink receives exactly the classification's toasts — which are
nonempty for every listed kind except a 422 whose detail is absent, an
empty string, or an empty list, in which case the rejection is silent
(see the counterexample). Network errors likewise toast and mutate
nothing. -/
theorem non_expiry_frame_amended :
    (∀ s tid t status d, s.tasks[tid]? = some t →
      t.phase = Phase.inFlight →
      status ∈ ([400, 403, 404, 422, 429, 500, 502, 503, 504] :
        List Nat) →
      (handleError s tid (some (status, d))).store = s.store ∧
      (handleError s tid (some (status, d))).isRefreshing =
        s.isRefreshing ∧
      (handleError s tid (some (status, d))).pendingRequests =
        s.pendingRequests ∧
      (handleError s tid (some (status, d))).refreshCalls =
        s.refreshCalls ∧
      (handleError s tid (some (status, d))).refreshDriver =
        s.refreshDriver ∧
      (handleError s tid (some (status, d))).redirectedToLogin =
        s.redirectedToLogin ∧
      taskPhase (handleError s tid (some (status, d))) tid =
        some (Phase.rejected ("http_" ++ toString status)) ∧
      (handleError s tid (some (status, d))).notifications =
        s.notifications ++ notifsFor (classify (some (status, d)))) ∧
    (∀ s tid t, s.tasks[tid]? = some t → t.phase = Phase.inFlight →
      (handleError s tid none).store = s.store ∧
      (handleError s tid none).isRefreshing = s.isRefreshing ∧
      (handleError s tid none).pendingRequests = s.pendingRequests ∧
      (handleError s tid none).refreshCalls = s.refreshCalls ∧
      (handleError s tid none).redirectedToLogin = s.redirectedToLogin ∧
      (handleError s tid none).notifications =
        s.notifications ++ notifsFor ErrorKind.networkUnavailable) ∧
    (∀ d st, st ∈ ([400, 403, 404, 429, 500, 502, 503, 504] : List Nat) →
      notifsFor (classify (some (st, d))) ≠ []) ∧
    notifsFor (classify (some (422, Detail.listD []))) = [] := by
  refine ⟨?_, ?_, ?_, rfl⟩
  · intro s tid t status d ht hp hmem
    have hne : status ≠ 401 := by
      simp only [List.mem_cons, List.mem_singleton,
        List.mem_nil_iff, or_false] at hmem
      rcases hmem with rfl | rfl | rfl | rfl | rfl | rfl | rfl | rfl | rfl
        <;> decide
    rw [handleError_switch_eq s tid status d t ht hp hne]
    refine ⟨rfl, rfl, rfl, rfl, rfl, rfl, ?_, rfl⟩
    show ((s.tasks.set tid
      { t with phase := Phase.rejected ("http_" ++ toString status)
        })[tid]?).map Task.phase =
        some (Phase.rejected ("http_" ++ toString status))
    rw [List.getElem?_set_eq_of_lt _ (List.getElem?_eq_some.mp ht).1]
    rfl
  · intro s tid t ht hp
    rw [handleError_netfail_eq s tid t ht hp]
    exact ⟨rfl, rfl, rfl, rfl, rfl, rfl⟩
  · intro d st hmem
    simp only [List.mem_cons, List.mem_singleton,
      List.mem_nil_iff, or_false] at hmem
    rcases hmem with rfl | rfl | rfl | rfl | rfl | rfl | rfl | rfl <;>
      simp [classify, notifsFor, detailMsg]

/-- Witness for `non_expiry_frame_amended`: a 404 and a network failure
against a fresh single-request system. -/
theorem non_expiry_frame_amended_witness :
    (handleError (initSys st0 1) 0 (some (404, Detail.noneD))).store =
      (initSys st0 1).store ∧
    (handleError (initSys st0 1) 0 none).notifications =
      (initSys st0 1).notifications ++
        notifsFor ErrorKind.networkUnavailable ∧
    notifsFor (classify (some (500, Detail.noneD))) ≠ [] :=
  ⟨(non_expiry_frame_amended.1 (initSys st0 1) 0
      { payload := "req0", silent := false, retry := false,
        phase := Phase.inFlight } 404 Detail.noneD rfl rfl
      (by decide)).1,
   (non_expiry_frame_amended.2.1 (initSys st0 1) 0
      { payload := "req0", silent := false, retry := false,
        phase := Phase.inFlight } rfl rfl).2.2.2.2.2,
   non_expiry_frame_amended.2.2.1 Detail.noneD 500 (by decide)⟩

/-- C9 (confirmed): the request interceptor attaches the bearer header
exactly when an access token is stored, the company-scope header exactly
when a scope id is stored, and a fresh trace id on every dispatch: in
every execution all logged trace ids are pairwise distinct (so a replay
never reuses the original id), while the rest of the descriptor (its
payload) is never changed by any step. -/
theorem request_header_contract :
    (∀ st uuid,
      ((mkHeaders st uuid).authorization = none ↔
        st.access_token = none) ∧
      (∀ tok, st.access_token = some tok →
        (mkHeaders st uuid).authorization =
          some ("Bearer " ++ tok)) ∧
      (mkHeaders st uuid).xCompanyId = st.current_company_id ∧
      (mkHeaders st uuid).xRequestID = uuid) ∧
    (∀ st n evs, (logIds (run (initSys st n) evs)).Nodup) ∧
    (∀ s e w, taskPayload (step s e) w = taskPayload s w) := by
  refine ⟨?_, ?_, ?_⟩
  · intro st uuid
    refine ⟨?_, ?_, rfl, rfl⟩
    · cases h : st.access_token <;> simp [mkHeaders, h]
    · intro tok h
      simp [mkHeaders, h]
  · intro st n evs
    exact (logFresh_run (initSys st n) evs (logFresh_init st n)).1
  · intro s e w
    rw [taskPayload_eq_map, taskPayload_eq_map, step_mapPayload]

/-- Witness for `request_header_contract` at concrete inputs. -/
theorem request_header_contract_witness :
    (mkHeaders st0 7).authorization = some "Bearer A1" ∧
    (logIds (run (initSys st0 2) schedOk2)).Nodup ∧
    taskPayload (step (initSys st0 1) (Ev.respondOk 0 none "p")) 0 =
      taskPayload (initSys st0 1) 0 :=
  ⟨(request_header_contract.1 st0 7).2.1 "A1" rfl,
   request_header_contract.2.1 st0 2 schedOk2,
   request_header_contract.2.2 (initSys st0 1)
     (Ev.respondOk 0 none "p") 0⟩

/-- C10 (amended): a 2xx response resolves the caller's request with its
payload unchanged, mutates no shared state (credential store, flag,
queue, renewal counters, other tasks), and emits a success notification
iff the body's message field is present AND non-empty and the request is
not marked silent — presence of an empty-string message emits nothing
(see the counterexample), which is the one divergence from the claimed
"contains a message field". -/
theorem success_path_amended :
    ∀ s tid t m p, s.tasks[tid]? = some t → t.phase = Phase.inFlight →
      taskPhase (handleResponse s tid m p) tid =
        some (Phase.resolved p) ∧
      (∀ w, w ≠ tid →
        (handleResponse s tid m p).tasks[w]? = s.tasks[w]?) ∧
      (handleResponse s tid m p).store = s.store ∧
      (handleResponse s tid m p).isRefreshing = s.isRefreshing ∧
      (handleResponse s tid m p).pendingRequests = s.pendingRequests ∧
      (handleResponse s tid m p).refreshCalls = s.refreshCalls ∧
      (handleResponse s tid m p).refreshDriver = s.refreshDriver ∧
      (handleResponse s tid m p).refreshWith = s.refreshWith ∧
      ((handleResponse s tid m p).notifications = s.notifications ↔
        ¬∃ msg, m = some msg ∧ msg ≠ "" ∧ t.silent = false) ∧
      (∀ msg, m = some msg → msg ≠ "" → t.silent = false →
        (handleResponse s tid m p).notifications =
          s.notifications ++ [Notif.success msg]) := by
  intro s tid t m p ht hp
  rw [handleResponse_ok_eq s tid t m p ht hp]
  unfold handleOk
  refine ⟨?_, ?_, rfl, rfl, rfl, rfl, rfl, rfl, ?_, ?_⟩
  · show ((s.tasks.set tid
      { t with phase := Phase.resolved p })[tid]?).map Task.phase =
        some (Phase.resolved p)
    rw [List.getElem?_set_eq_of_lt _ (List.getElem?_eq_some.mp ht).1]
    rfl
  · intro w hw
    show (s.tasks.set tid { t with phase := Phase.resolved p })[w]? =
      s.tasks[w]?
    exact List.getElem?_set_ne (Ne.symm hw)
  · rcases m with _ | msg
    · simp
    · by_cases hm : msg ≠ "" ∧ t.silent = false
      · simp [hm]
      · simp only [not_and_or, not_not, Bool.not_eq_false] at hm
        rcases hm with hm | hm <;> simp [hm]
  · intro msg hmm hne hsil
    subst hmm
    simp [hne, hsil]

/-- Witness for `success_path_amended`: a 200 with a nonempty message on
a non-silent request. -/
theorem success_path_amended_witness :
    (handleResponse (initSys st0 1) 0 (some "saved") "p").store =
      (initSys st0 1).store ∧
    (handleResponse (initSys st0 1) 0 (some "saved") "p").notifications =
      (initSys st0 1).notifications ++ [Notif.success "saved"] :=
  ⟨(success_path_amended (initSys st0 1) 0
      { payload := "req0", silent := false, retry := false,
        phase := Phase.inFlight } (some "saved") "p" rfl rfl).2.2.1,
   (success_path_amended (initSys st0 1) 0
      { payload := "req0", silent := false, retry := false,
        phase := Phase.inFlight } (some "saved") "p" rfl
      rfl).2.2.2.2.2.2.2.2.2 "saved" rfl (by decide) rfl⟩

end Aether
